import Mathlib

/-!
Shallow embedding of the movie CRUD client (src/script.js).

The program keeps a single in-memory cache of movie records, renders it to a
listing, filters it by substring queries, and issues create/update/delete
requests followed by a full re-fetch. Effectful pieces (DOM, fetch, prompts,
confirm) are modelled as explicit state values and outcome data: a render is a
function from the movie list (and the prior DOM state, which the code clears)
to a view state; each network handler is a function from the response outcome
to the new application state plus the console log lines it emits; user prompts
and the confirm gate are Option/Bool inputs.
-/

namespace MovieApp

/-- The single quote character U+0027, the character escaped by
`escapeQuotes` (src/script.js line 24). -/
def squote : Char := Char.ofNat 39

/-- One-character string holding `squote`; used where the generated markup
delimits embedded values with single quotes (src/script.js lines 50-51). -/
def sq : String := String.singleton squote

/-- Per-character action of the global regex replace
`str.replace(/\x27/g, "&#39;")` at src/script.js line 24: a single quote
becomes the five-character entity `&#39;`, any other character is kept. -/
def escChar (c : Char) : List Char :=
  if c = squote then ("&#39;").data else [c]

/-- Character-list form of `escapeQuotes`: the regex is global, so the
replacement is applied at every position independently. -/
def escapeQuotesL : List Char → List Char
  | [] => []
  | c :: cs => escChar c ++ escapeQuotesL cs

/-- Embedding of `escapeQuotes` (src/script.js lines 21-25) on strings.
The JS function also passes non-strings through unchanged; all call sites in
the program pass strings, so the model is on `String`. -/
def escapeQuotes (s : String) : String :=
  String.mk (escapeQuotesL s.data)

/-- A movie Record: server-assigned identifier, title, genre, year
(spec section 3; the JSON objects `{id, title, genre, year}`). -/
structure Movie where
  id : Nat
  title : String
  genre : String
  year : Int
deriving DecidableEq, Repr

/-- One rendered `movie-item` element (src/script.js lines 40-54): the
visible paragraph markup and the two onclick attribute values of the edit
and delete buttons. -/
structure RowElem where
  paragraph : String
  editOnClick : String
  deleteOnClick : String
deriving DecidableEq, Repr

/-- The markup built for one movie inside `renderMovies`
(src/script.js lines 48-53): the paragraph interpolates the raw
`movie.title`, `movie.year`, `movie.genre`; the edit onclick interpolates
`movie.id`, the escaped title, `movie.year` and the escaped genre, each text
value wrapped in single quotes; the delete onclick interpolates `movie.id`.
The newline and indentation inside the edit onclick reproduce the line wrap
of the template literal. -/
def renderRow (m : Movie) : RowElem :=
  { paragraph :=
      "<strong>" ++ m.title ++ "</strong> (" ++ toString m.year ++ ") - "
        ++ m.genre
    editOnClick :=
      "editMoviePrompt(" ++ toString m.id ++ ", " ++ sq
        ++ escapeQuotes m.title ++ sq ++ ", " ++ toString m.year ++ ",\n                "
        ++ sq ++ escapeQuotes m.genre ++ sq ++ ")"
    deleteOnClick := "deleteMovie(" ++ toString m.id ++ ")" }

/-- State of the `movie-list` container: the list of rendered `movie-item`
elements, and whether the "no results" placeholder paragraph
`<p>No movies found matching your criteria.</p>` is shown instead. -/
structure ViewState where
  rows : List RowElem
  emptyMessage : Bool
deriving DecidableEq, Repr

/-- Embedding of `renderMovies` (src/script.js lines 33-56) as a function of
the prior DOM state: line 34 first clears the container
(`movieListDiv.innerHTML` is set to the empty string), then an empty input
installs the placeholder and returns, and a non-empty input appends one
`movie-item` element per movie in order. -/
def renderMoviesInto (_dom : ViewState) (moviesToDisplay : List Movie) : ViewState :=
  let cleared : ViewState := { rows := [], emptyMessage := false }
  if moviesToDisplay.length = 0 then
    { cleared with emptyMessage := true }
  else
    moviesToDisplay.foldl
      (fun acc movie => { acc with rows := acc.rows ++ [renderRow movie] }) cleared

/-- Rendering from an empty container; by the clearing at line 34 every call
of `renderMovies` produces this value regardless of the prior DOM state. -/
def renderMovies (ms : List Movie) : ViewState :=
  renderMoviesInto { rows := [], emptyMessage := false } ms

/-- Lower-casing as applied by `.toLowerCase()` in the search handler
(src/script.js lines 80, 84-85), modelled character-wise. -/
def lowerL (s : String) : List Char :=
  s.data.map Char.toLower

/-- JS `String.prototype.includes`: `hasSub hay needle` is true when
`needle` occurs contiguously inside `hay`; the empty needle always
matches. -/
def hasSub : List Char → List Char → Bool
  | hay, needle =>
    needle.isPrefixOf hay ||
      match hay with
      | [] => false
      | _ :: t => hasSub t needle

/-- The filter predicate of the search input handler
(src/script.js lines 83-87): lower-cased query contained in the lower-cased
title, or in the lower-cased genre. -/
def matchesQuery (searchTerm : String) (movie : Movie) : Bool :=
  hasSub (lowerL movie.title) (lowerL searchTerm)
    || hasSub (lowerL movie.genre) (lowerL searchTerm)

/-- Embedding of the search handler body (src/script.js lines 79-89):
`allMovies.filter(...)` on the cache with the query. The handler then
renders the filtered list; the cache itself is not modified. -/
def filterMovies (searchTerm : String) (allMovies : List Movie) : List Movie :=
  allMovies.filter (matchesQuery searchTerm)

/-- Digit run to a natural number, most significant first. -/
def digitsToNat (ds : List Char) : Nat :=
  ds.foldl (fun a c => a * 10 + (c.toNat - 48)) 0

/-- Embedding of JS `parseInt(s)` restricted to its use here: an optional
sign followed by a longest run of decimal digits; `none` models `NaN`
(no leading digit at all, as for input "abcd"). Leading whitespace and
radix prefixes, which no call site here produces, are not modelled. -/
def jsParseInt (s : String) : Option Int :=
  match s.data with
  | [] => none
  | c :: t =>
    if c = Char.ofNat 45 then
      let ds := t.takeWhile Char.isDigit
      if ds.isEmpty then none else some (-(digitsToNat ds : Int))
    else if c = Char.ofNat 43 then
      let ds := t.takeWhile Char.isDigit
      if ds.isEmpty then none else some ((digitsToNat ds : Int))
    else
      let ds := (c :: t).takeWhile Char.isDigit
      if ds.isEmpty then none else some ((digitsToNat ds : Int))

/-- Outcome of the form submit handler before any response arrives:
either a blocking validation alert with no network activity, or a POST
request carrying the body that will be serialized (`none` in the year field
models `NaN`, which JSON-serializes as null). -/
inductive CreateOutcome
  | validationAlert (msg : String)
  | postRequest (title genre : String) (year : Option Int)
deriving DecidableEq, Repr

/-- Embedding of the form submit handler (src/script.js lines 93-127) up to
the point the POST is issued: the only validation (lines 102-105) alerts
when any of the three field values is the empty string (JS falsiness of
strings); otherwise the request body is built with
`year: parseInt(yearInput)` (line 110) and the POST is sent. -/
def handleAddMovieSubmit (title genre yearInput : String) : CreateOutcome :=
  if title = "" || genre = "" || yearInput = "" then
    .validationAlert "Please fill in all fields."
  else
    .postRequest title genre (jsParseInt yearInput)

/-- Outcome of the edit prompt flow: silent abort, the year alert, or a PUT
request with the collected replacement fields. -/
inductive EditOutcome
  | noRequest
  | yearAlert (msg : String)
  | putRequest (id : Nat) (title : String) (year : Int) (genre : String)
deriving DecidableEq, Repr

/-- Embedding of `editMoviePrompt` (src/script.js lines 134-156). The three
prompt results are `Option String` (`none` models pressing Cancel, which
makes `prompt` return null). Only when all three are non-null is the year
parsed; `NaN` raises the alert, and otherwise `updateMovie` is called with
the PUT payload. -/
def editMoviePrompt (id : Nat)
    (newTitle newYearStr newGenre : Option String) : EditOutcome :=
  match newTitle, newYearStr, newGenre with
  | some t, some y, some g =>
    match jsParseInt y with
    | none => .yearAlert "Year must be a number."
    | some n => .putRequest id t n g
  | _, _, _ => .noRequest

/-- Whole-application state visible to the synchronizer: the cache
`allMovies` (src/script.js line 12) and the rendered view. -/
structure AppState where
  cache : List Movie
  view : ViewState
deriving DecidableEq, Repr

/-- Outcome of a `fetch(API_URL)` call: a transport failure (the promise
rejects), or a response with its `ok` flag, status code and JSON body. -/
inductive FetchOutcome
  | networkError
  | response (ok : Bool) (status : Nat) (body : List Movie)
deriving DecidableEq, Repr

/-- The fixed prefix logged by the read path
(`console.error` at src/script.js line 71); the attached error object is
not modelled. -/
def fetchErrorLog : String := "Error fetching movies:"

/-- Embedding of `fetchMovies` (src/script.js lines 61-72) as a function of
the fetch outcome: a non-ok response throws (line 64) and the catch only
logs, as does a network error, leaving cache and view untouched; an ok
response stores the body in `allMovies` and renders it into the current
view. Returns the new state and the console log lines emitted. -/
def fetchMoviesStep (st : AppState) (r : FetchOutcome) : AppState × List String :=
  match r with
  | .networkError => (st, [fetchErrorLog])
  | .response ok _ body =>
    if ok then
      ({ cache := body, view := renderMoviesInto st.view body }, [])
    else
      (st, [fetchErrorLog])

/-- Outcome of `deleteMovie` before any response arrives: either nothing
(the confirm gate declined) or the DELETE request for the given id. -/
inductive DeleteOutcome
  | noRequest
  | deleteRequest (id : Nat)
deriving DecidableEq, Repr

/-- Embedding of the synchronous part of `deleteMovie`
(src/script.js lines 179-186): when `confirm` returns false the function
returns immediately (lines 180-182) with no request and no state change;
otherwise the DELETE request is issued. The function itself never reads or
writes `allMovies`. -/
def deleteMovieStep (st : AppState) (confirmed : Bool) (movieId : Nat) :
    AppState × DeleteOutcome :=
  if !confirmed then (st, .noRequest) else (st, .deleteRequest movieId)

/-- The externally visible actions a mutation completion handler performs. -/
inductive Effect
  | resetForm
  | callFetchMovies
  | logError (msg : String)
deriving DecidableEq, Repr

/-- Effects of the create response handlers (src/script.js lines 118-126):
on ok, `this.reset()` then `fetchMovies()`, in that order; otherwise the
catch logs. The handler never touches `allMovies` directly. -/
def createCompletion (ok : Bool) : List Effect :=
  if ok then [.resetForm, .callFetchMovies] else [.logError "Error adding movie:"]

/-- Effects of the update response handlers (src/script.js lines 167-174):
on ok, `fetchMovies()`; otherwise the catch logs. -/
def updateCompletion (ok : Bool) : List Effect :=
  if ok then [.callFetchMovies] else [.logError "Error updating movie:"]

/-- Effects of the delete response handlers (src/script.js lines 187-192):
on ok, `fetchMovies()`; otherwise the catch logs. -/
def deleteCompletion (ok : Bool) : List Effect :=
  if ok then [.callFetchMovies] else [.logError "Error deleting movie:"]

/-- Fixture from the spec scenario (section 8). -/
def dune : Movie := { id := 1, title := "Dune", genre := "Sci-Fi", year := 2021 }

/-- Fixture from the spec scenario (section 8). -/
def heat : Movie := { id := 2, title := "Heat", genre := "Crime", year := 1995 }

/-- Concrete title holding two single quotes, for evaluating the escaping. -/
def qTitle : String := "a" ++ sq ++ "b" ++ sq

/-- Concrete movie whose title contains quote characters. -/
def mq : Movie := { id := 7, title := qTitle, genre := "g", year := 1999 }

/-- Concrete application state used by witnesses. -/
def exSt : AppState := { cache := [dune, heat], view := renderMovies [dune, heat] }

/-- The escape of a single character never yields the quote character:
the entity `&#39;` is quote-free and every other character is kept as is. -/
theorem squote_not_mem_escChar (c : Char) : squote ∉ escChar c := by
  unfold escChar
  by_cases h : c = squote
  · simp only [h, if_pos rfl]
    decide
  · simp only [if_neg h, List.mem_singleton]
    exact fun e => h e.symm

/-- No quote character survives the global replacement. -/
theorem squote_not_mem_escapeQuotesL (cs : List Char) : squote ∉ escapeQuotesL cs := by
  induction cs with
  | nil => simp [escapeQuotesL]
  | cons c t ih =>
    simp only [escapeQuotesL, List.mem_append]
    rintro (h | h)
    · exact squote_not_mem_escChar c h
    · exact ih h

/-- Every occurrence of the quote character is expanded to the
five-character entity: the output grows by exactly four characters per
occurrence. -/
theorem escapeQuotesL_length (cs : List Char) :
    (escapeQuotesL cs).length = cs.length + 4 * cs.count squote := by
  induction cs with
  | nil => rfl
  | cons c t ih =>
    by_cases h : c = squote
    · subst h
      simp [escapeQuotesL, escChar, ih, List.count_cons]
      omega
    · simp [escapeQuotesL, escChar, h, ih, List.count_cons]
      omega

/-- The empty needle is contained in every haystack (JS `includes("")`). -/
theorem hasSub_nil (hay : List Char) : hasSub hay [] = true := by
  rw [hasSub.eq_def]
  simp [List.isPrefixOf]

/-- The lower-cased empty string is the empty character list. -/
theorem lowerL_empty : lowerL "" = [] := rfl

/-- The empty query matches every movie. -/
theorem matchesQuery_empty (m : Movie) : matchesQuery "" m = true := by
  simp [matchesQuery, lowerL_empty, hasSub_nil]

/-- Filtering with the empty query returns the cache unchanged. -/
theorem filterMovies_empty_query (C : List Movie) : filterMovies "" C = C :=
  List.filter_eq_self.mpr (fun a _ => matchesQuery_empty a)

/-- The append loop of the renderer only extends the row list, in order. -/
theorem renderMovies_foldl (ms : List Movie) (d : ViewState) :
    ms.foldl (fun acc movie => { acc with rows := acc.rows ++ [renderRow movie] }) d
      = { d with rows := d.rows ++ ms.map renderRow } := by
  induction ms generalizing d with
  | nil => simp
  | cons m t ih => simp [ih, List.append_assoc]

/-- Closed form of the renderer: the prior DOM content is discarded and the
result is the placeholder for an empty list, else one row per movie. -/
theorem renderMoviesInto_eq (d : ViewState) (ms : List Movie) :
    renderMoviesInto d ms
      = if ms.length = 0 then { rows := [], emptyMessage := true }
        else { rows := ms.map renderRow, emptyMessage := false } := by
  unfold renderMoviesInto
  by_cases h : ms.length = 0
  · simp [h]
  · simp [h, renderMovies_foldl]

/-- Rendering into any prior DOM state equals rendering from scratch. -/
theorem renderMoviesInto_indep (d : ViewState) (ms : List Movie) :
    renderMoviesInto d ms = renderMovies ms := by
  rw [renderMoviesInto_eq, renderMovies, renderMoviesInto_eq]

/-- The visible paragraph keeps at least every quote of the raw title and
genre: no escaping is applied to the displayed copies. -/
theorem paragraph_keeps_quotes (m : Movie) :
    m.title.data.count squote + m.genre.data.count squote
      ≤ (renderRow m).paragraph.data.count squote := by
  show m.title.data.count squote + m.genre.data.count squote
      ≤ (("<strong>" ++ m.title ++ "</strong> (" ++ toString m.year ++ ") - "
            ++ m.genre)).data.count squote
  simp only [String.data_append, List.count_append]
  omega

/-- C1: for every Record whose title or genre contains quote characters,
the row output escapes every occurrence of the quote character in the
values embedded as edit-action parameters: the edit onclick attribute embeds
exactly the escaped copies, the escaped copies contain no quote character at
all, and the length accounting shows each of the `count squote` occurrences
was expanded into the five-character entity, not just the first. -/
theorem renderRow_edit_params_escaped (m : Movie) :
    (renderRow m).editOnClick
      = "editMoviePrompt(" ++ toString m.id ++ ", " ++ sq ++ escapeQuotes m.title
          ++ sq ++ ", " ++ toString m.year ++ ",\n                " ++ sq
          ++ escapeQuotes m.genre ++ sq ++ ")"
    ∧ squote ∉ (escapeQuotes m.title).data
    ∧ squote ∉ (escapeQuotes m.genre).data
    ∧ (escapeQuotes m.title).data.length
        = m.title.data.length + 4 * m.title.data.count squote
    ∧ (escapeQuotes m.genre).data.length
        = m.genre.data.length + 4 * m.genre.data.count squote :=
  ⟨rfl, squote_not_mem_escapeQuotesL m.title.data,
    squote_not_mem_escapeQuotesL m.genre.data,
    escapeQuotesL_length m.title.data, escapeQuotesL_length m.genre.data⟩

/-- Witness for C1 at a title with two quote characters: both occurrences
are replaced and none survives. -/
theorem renderRow_edit_params_escaped_witness :
    mq.title.data.count squote = 2
    ∧ escapeQuotes mq.title = "a&#39;b&#39;"
    ∧ squote ∉ (escapeQuotes mq.title).data :=
  ⟨by decide, by decide, (renderRow_edit_params_escaped mq).2.1⟩

/-- C2: the claim says a create with year input "abcd" is rejected by
validation before any network call; the code only checks the three fields
for non-emptiness (src/script.js lines 102-105), so "abcd" passes
validation, `parseInt` yields NaN, and the POST request IS sent with a
non-numeric year — while an empty field is indeed rejected with the alert.
This contradicts the inline comment at line 110 ("Ensure year is an
integer") and the NaN check the edit path does perform (lines 142-146). -/
theorem create_nonNumericYear_sends_request :
    handleAddMovieSubmit "T" "G" "abcd" = CreateOutcome.postRequest "T" "G" none
    ∧ jsParseInt "abcd" = none
    ∧ handleAddMovieSubmit "" "G" "2021"
        = CreateOutcome.validationAlert "Please fill in all fields." :=
  ⟨by decide, by decide, by decide⟩

/-- C3: the filter returns exactly the subsequence of cached Records whose
lower-cased title or lower-cased genre contains the lower-cased query as a
substring, and the empty query returns the cache unchanged in order. -/
theorem filterMovies_spec (q : String) (C : List Movie) :
    filterMovies q C
      = C.filter (fun r =>
          hasSub (lowerL r.title) (lowerL q) || hasSub (lowerL r.genre) (lowerL q))
    ∧ List.Sublist (filterMovies q C) C
    ∧ (∀ r : Movie, r ∈ filterMovies q C ↔ r ∈ C ∧ matchesQuery q r = true)
    ∧ filterMovies "" C = C := by
  refine ⟨rfl, List.filter_sublist C, fun r => ?_, filterMovies_empty_query C⟩
  simp [filterMovies, List.mem_filter]

/-- Witness for C3 on the spec scenario cache: query "d" matches only Dune,
query "19" matches nothing (year is excluded from matching), and the empty
query returns the cache unchanged. -/
theorem filterMovies_spec_witness :
    filterMovies "d" [dune, heat] = [dune]
    ∧ filterMovies "19" [dune, heat] = []
    ∧ filterMovies "" [dune, heat] = [dune, heat] :=
  ⟨by decide, by decide, (filterMovies_spec "" [dune, heat]).2.2.2⟩

/-- C4: rendering the empty sequence yields the placeholder and zero row
elements; rendering a non-empty sequence yields no placeholder and exactly
one row per Record, in order, each row being the markup of that Record. -/
theorem renderMovies_rows_spec (dom : ViewState) (ms : List Movie) :
    (ms = [] → renderMoviesInto dom ms = { rows := [], emptyMessage := true })
    ∧ (ms ≠ [] →
        (renderMoviesInto dom ms).emptyMessage = false
        ∧ (renderMoviesInto dom ms).rows = ms.map renderRow
        ∧ (renderMoviesInto dom ms).rows.length = ms.length) := by
  constructor
  · rintro rfl
    rw [renderMoviesInto_eq]
    simp
  · intro h
    have hlen : ¬ ms.length = 0 := by simpa using h
    rw [renderMoviesInto_eq]
    simp [hlen]

/-- Witness for C4: the empty list renders the placeholder, and the
two-record scenario cache renders exactly two rows. -/
theorem renderMovies_rows_spec_witness :
    renderMoviesInto { rows := [], emptyMessage := false } []
        = { rows := [], emptyMessage := true }
    ∧ (renderMoviesInto exSt.view [dune, heat]).rows.length = 2 := by
  refine ⟨(renderMovies_rows_spec { rows := [], emptyMessage := false } []).1 rfl, ?_⟩
  have h := ((renderMovies_rows_spec exSt.view [dune, heat]).2 (by decide)).2.2
  rw [h]
  rfl

/-- C5: a network error or any non-ok response — uniformly in the status
code and body — leaves the cache and view unchanged and only emits the log
line; an ok response replaces the cache wholesale with the body and renders
the full unfiltered cache, logging nothing. -/
theorem fetchMovies_failure_and_success (st : AppState) (status status2 : Nat)
    (body body2 : List Movie) :
    fetchMoviesStep st FetchOutcome.networkError = (st, [fetchErrorLog])
    ∧ fetchMoviesStep st (FetchOutcome.response false status body) = (st, [fetchErrorLog])
    ∧ fetchMoviesStep st (FetchOutcome.response false status body)
        = fetchMoviesStep st (FetchOutcome.response false status2 body2)
    ∧ (fetchMoviesStep st (FetchOutcome.response true status body)).1.cache = body
    ∧ (fetchMoviesStep st (FetchOutcome.response true status body)).1.view
        = renderMovies body
    ∧ (fetchMoviesStep st (FetchOutcome.response true status body)).2 = [] :=
  ⟨rfl, rfl, rfl, rfl, renderMoviesInto_indep st.view body, rfl⟩

/-- C6: the delete flow issues no request and changes no state when the
confirmation is declined, never changes the cache at request time, and
issues a request only when the confirmation was accepted. -/
theorem deleteMovie_confirmation_gate (st : AppState) (confirmed : Bool)
    (movieId : Nat) :
    deleteMovieStep st false movieId = (st, DeleteOutcome.noRequest)
    ∧ (deleteMovieStep st confirmed movieId).1 = st
    ∧ ((deleteMovieStep st confirmed movieId).2 ≠ DeleteOutcome.noRequest →
        confirmed = true) := by
  refine ⟨rfl, ?_, ?_⟩
  · cases confirmed <;> rfl
  · intro h
    cases confirmed
    · exact absurd rfl h
    · rfl

/-- Witness for C6: with the concrete state, declining yields no request
and an unchanged state; a request implies the confirmation was accepted. -/
theorem deleteMovie_confirmation_gate_witness :
    deleteMovieStep exSt false 5 = (exSt, DeleteOutcome.noRequest) ∧ true = true :=
  ⟨(deleteMovie_confirmation_gate exSt false 5).1,
    (deleteMovie_confirmation_gate exSt true 5).2.2 (by decide)⟩

/-- C7: cancelling any one of the three prompts aborts the edit with no
request; with all three confirmed, the PUT request is issued exactly when
the year input parses as a number, and a non-numeric year only raises the
alert. -/
theorem editMoviePrompt_cancel_aborts (id : Nat) (o1 o2 o3 : Option String)
    (t y g : String) (n : Int) :
    ((o1 = none ∨ o2 = none ∨ o3 = none) →
        editMoviePrompt id o1 o2 o3 = EditOutcome.noRequest)
    ∧ (editMoviePrompt id (some t) (some y) (some g)
          = EditOutcome.putRequest id t n g
        ↔ jsParseInt y = some n)
    ∧ (jsParseInt y = none →
        editMoviePrompt id (some t) (some y) (some g)
          = EditOutcome.yearAlert "Year must be a number.") := by
  refine ⟨?_, ?_, ?_⟩
  · rintro (rfl | rfl | rfl)
    · cases o2 <;> cases o3 <;> rfl
    · cases o1 <;> cases o3 <;> rfl
    · cases o1 <;> cases o2 <;> rfl
  · cases hp : jsParseInt y with
    | none => simp [editMoviePrompt, hp]
    | some k => simp [editMoviePrompt, hp]
  · intro hn
    simp [editMoviePrompt, hn]

/-- Witness for C7: a cancelled second prompt aborts; year "2021" yields
the PUT request; year "abcd" yields the alert. -/
theorem editMoviePrompt_cancel_aborts_witness :
    editMoviePrompt 3 (some "T") none (some "G") = EditOutcome.noRequest
    ∧ editMoviePrompt 3 (some "T") (some "2021") (some "G")
        = EditOutcome.putRequest 3 "T" 2021 "G"
    ∧ editMoviePrompt 3 (some "T") (some "abcd") (some "G")
        = EditOutcome.yearAlert "Year must be a number." :=
  ⟨(editMoviePrompt_cancel_aborts 3 (some "T") none (some "G") "T" "2021" "G" 2021).1
      (Or.inr (Or.inl rfl)),
    (editMoviePrompt_cancel_aborts 3 (some "T") none (some "G") "T" "2021" "G" 2021).2.1.mpr
      (by decide),
    (editMoviePrompt_cancel_aborts 3 (some "T") none (some "G") "T" "abcd" "G" 2021).2.2
      (by decide)⟩

/-- C8: every successful mutation completion handler triggers a full
re-fetch and performs no direct cache edit (create additionally resets the
form first, before the re-fetch); the re-fetch then replaces the cache
wholesale with the server body, independently of the prior cache, and
renders it. -/
theorem mutation_success_refetch (st : AppState) (status : Nat)
    (body : List Movie) :
    createCompletion true = [Effect.resetForm, Effect.callFetchMovies]
    ∧ updateCompletion true = [Effect.callFetchMovies]
    ∧ deleteCompletion true = [Effect.callFetchMovies]
    ∧ (fetchMoviesStep st (FetchOutcome.response true status body)).1.cache = body
    ∧ (fetchMoviesStep st (FetchOutcome.response true status body)).1.view
        = renderMovies body :=
  ⟨rfl, rfl, rfl, rfl, renderMoviesInto_indep st.view body⟩

/-- C9: rendering is deterministic in the movie list alone — the prior DOM
content never influences the output — and rendering the same list twice in
a row yields the same listing as rendering it once. -/
theorem render_idempotent_no_memory (d e : ViewState) (ms : List Movie) :
    renderMoviesInto d ms = renderMoviesInto e ms
    ∧ renderMoviesInto (renderMoviesInto d ms) ms = renderMoviesInto d ms
    ∧ renderMoviesInto d ms = renderMovies ms := by
  refine ⟨?_, ?_, renderMoviesInto_indep d ms⟩
  · rw [renderMoviesInto_indep, renderMoviesInto_indep]
  · rw [renderMoviesInto_indep d, renderMoviesInto_indep]

/-- C10: the visible paragraph embeds the raw title, year and genre with no
escaping transformation — every quote character of the raw values is still
present in the paragraph — while the quote-escaped copies appear only in
the edit onclick parameters, and the delete onclick carries only the id. -/
theorem renderRow_paragraph_verbatim (m : Movie) :
    (renderRow m).paragraph
      = "<strong>" ++ m.title ++ "</strong> (" ++ toString m.year ++ ") - "
          ++ m.genre
    ∧ m.title.data.count squote + m.genre.data.count squote
        ≤ (renderRow m).paragraph.data.count squote
    ∧ (renderRow m).editOnClick
        = "editMoviePrompt(" ++ toString m.id ++ ", " ++ sq ++ escapeQuotes m.title
            ++ sq ++ ", " ++ toString m.year ++ ",\n                " ++ sq
            ++ escapeQuotes m.genre ++ sq ++ ")"
    ∧ (renderRow m).deleteOnClick = "deleteMovie(" ++ toString m.id ++ ")" :=
  ⟨rfl, paragraph_keeps_quotes m, rfl, rfl⟩

end MovieApp
